import Mathlib

/-!
Verification of the SoundCloud module (`src/soundcloud.py`): a shallow
embedding of its stream-variant selection and metadata reconciliation logic,
with theorems checking the specification's claims against it.

Python strings are modelled as Lean `String` (operated on through their
`List Char` data); JSON dict records become structures with `Option` fields
(`none` = key absent); Python exceptions become `Except` results.
-/

/-- Substring test on character lists: `listContains needle hay` is
Python's `needle in hay`. -/
def listContains (needle hay : List Char) : Bool :=
  match hay with
  | [] => needle.isEmpty
  | c :: t => needle.isPrefixOf (c :: t) || listContains needle t

/-- Python's `needle in hay` for strings. -/
def strContains (hay needle : String) : Bool :=
  listContains needle.data hay.data

/-- Python's `s.startswith(p)`. -/
def strStartsWith (s p : String) : Bool :=
  p.data.isPrefixOf s.data

/-- Index of the first occurrence of `needle` in `hay`
(Python's `hay.find(needle)`, with `none` standing for `-1`). -/
def findSub (needle hay : List Char) : Option Nat :=
  match hay with
  | [] => if needle.isEmpty then some 0 else none
  | c :: t =>
    if needle.isPrefixOf (c :: t) then some 0
    else (findSub needle t).map (· + 1)

/-- ASCII lower-casing of one character (the reach of Python's `str.lower`
needed here: all mime types in play are ASCII). -/
def lowerChar (c : Char) : Char :=
  if 'A' ≤ c ∧ c ≤ 'Z' then Char.ofNat (c.toNat + 32) else c

/-- Python's `s.lower()` on ASCII strings. -/
def pyLower (s : String) : String :=
  String.mk (s.data.map lowerChar)

/-- The `format` sub-dict of a transcoding (`src/soundcloud.py`, data shape). -/
structure SCFormat where
  mime_type : String
  protocol : String
deriving DecidableEq, Repr

/-- One entry of `media.transcodings`; `Option` marks keys the code reads
with `.get` defaults. -/
structure Transcoding where
  preset : Option String
  quality : Option String
  format : Option SCFormat
  url : Option String
  duration : Option Int
deriving DecidableEq, Repr

/-- `t.get('format', {}).get('protocol', '')`. -/
def protocolOf (t : Transcoding) : String :=
  match t.format with
  | some f => f.protocol
  | none => ""

/-- `t.get('quality')` (absent key gives Python `None`). -/
def qualityOf (t : Transcoding) : Option String :=
  t.quality

/-- `t.get('preset', '')`. -/
def presetOf (t : Transcoding) : String :=
  t.preset.getD ""

/-- `t.get('format', {}).get('mime_type', '')`. -/
def mimeOf (t : Transcoding) : String :=
  match t.format with
  | some f => f.mime_type
  | none => ""

/-- A transcoding is usable when its protocol does not contain
`'encrypted'` (the skip condition of `filter_transcodings`). -/
def usableB (t : Transcoding) : Bool :=
  !(strContains (protocolOf t) "encrypted")

/-- `filter_transcodings` (`src/soundcloud.py` lines 516-532): drop encrypted
entries, then apply the optional quality and preset-prefix filters. -/
def filter_transcodings (transcodings_list : List Transcoding)
    (quality : Option String) ( preset_prefix : Option String) :
    List Transcoding :=
  transcodings_list.filter fun t =>
    !(strContains (protocolOf t) "encrypted") &&
    (match quality with
     | none => true
     | some q => qualityOf t == some q) &&
    (match preset_prefix with
     | none => true
     | some p => strStartsWith (presetOf t) p)

/-- The codec-fallback part of the selection in `soundcloud_download_track`
(lines 577-591): first AAC, then MP3, then Opus candidates. -/
def choose_after_hq (transcodings : List Transcoding) : Option Transcoding :=
  match (filter_transcodings transcodings none (some "aac_")).head? with
  | some c => some c
  | none =>
    match (filter_transcodings transcodings none (some "mp3_")).head? with
    | some c => some c
    | none => (filter_transcodings transcodings none (some "opus_")).head?

/-- The full choice of transcoding in `soundcloud_download_track`
(lines 566-591): the HQ filter when `hq` is set, else the codec cascade. -/
def choose_transcoding (transcodings : List Transcoding) (hq : Bool) :
    Option Transcoding :=
  match (if hq then (filter_transcodings transcodings (some "hq") none).head?
         else none) with
  | some c => some c
  | none => choose_after_hq transcodings

/-- Stream selection of `soundcloud_download_track` (lines 552-595),
including the two raise sites, as an `Except`. -/
def select_stream (transcodings : List Transcoding) (hq : Bool) :
    Except String Transcoding :=
  if transcodings.isEmpty then
    Except.error "No transcodings found or track not streamable."
  else
    match choose_transcoding transcodings hq with
    | some c => Except.ok c
    | none => Except.error "No suitable transcoding found."

/-- Python's `s.rfind(c)` for a single character: the highest index holding
`c`, or `-1` when absent. -/
def lastIndexOf (c : Char) (l : List Char) : Int :=
  match l with
  | [] => -1
  | x :: t =>
    let r := lastIndexOf c t
    if r ≥ 0 then r + 1 else if x = c then 0 else -1

/-- `os.path.splitext` (POSIX): split at the last dot of the basename,
unless every character between the last separator and that dot is itself a
dot (leading dots carry no extension). -/
def splitext (p : List Char) : List Char × List Char :=
  let sepIndex := lastIndexOf '/' p
  let dotIndex := lastIndexOf '.' p
  if dotIndex > sepIndex then
    let between := (p.drop (sepIndex + 1).toNat).take (dotIndex - sepIndex - 1).toNat
    if between.any (fun c => c != '.') then
      (p.take dotIndex.toNat, p.drop dotIndex.toNat)
    else (p, [])
  else (p, [])

/-- `guess_container_from_mime` (`src/soundcloud.py` lines 501-514):
lower-case the mime type, then substring checks with an `"mp3"` default. -/
def guess_container_from_mime (mime_type : String) : String :=
  let m := pyLower mime_type
  if strContains m "mpeg" then "mp3"
  else if strContains m "mp4" then "m4a"
  else if strContains m "ogg" then "ogg"
  else "mp3"

/-- Container inference in the spec's words (claim C4): the substring checks
applied to the input string as given, without lower-casing. -/
def guess_container_claimed (mime_type : String) : String :=
  if strContains mime_type "mpeg" then "mp3"
  else if strContains mime_type "mp4" then "m4a"
  else if strContains mime_type "ogg" then "ogg"
  else "mp3"

/-- Output-path derivation of `soundcloud_download_track` (lines 601-610).
The source's `return output_path, chosen` sits inside the `else:` branch
only; on the `not output_path` branch the synthesized name is assigned and
then the function falls off its end, so the caller receives `None` —
modelled here by `none`. -/
def soundcloud_output_path (item_id mime_type : String)
    (output_path : Option String) : Option String :=
  let container := guess_container_from_mime mime_type
  let base_path := String.mk (splitext (output_path.getD "").data).1
  if (output_path.getD "") = "" then none
  else some (base_path ++ "." ++ container)

/-- Output-path derivation in the spec's words (claim C5): replace the
extension when a path is supplied, else synthesize
`"soundcloud_<item_id>.<container>"`. -/
def soundcloud_output_path_spec (item_id mime_type : String)
    (output_path : Option String) : String :=
  match output_path with
  | none => "soundcloud_" ++ item_id ++ "." ++ guess_container_from_mime mime_type
  | some p => String.mk (splitext p.data).1 ++ "." ++ guess_container_from_mime mime_type

/-- Python truthiness of one of the string values handled below. -/
def isPySpace (c : Char) : Bool :=
  c == ' ' || c == '\t' || c == '\n' || c == '\r' || c == '\x0b' || c == '\x0c'

/-- Python's `s.strip()`. -/
def pyStrip (s : String) : String :=
  String.mk (((s.data.dropWhile isPySpace).reverse.dropWhile isPySpace).reverse)

/-- Python's `s.split(',')`: never empty, and keeps empty pieces. -/
def splitComma (s : List Char) : List (List Char) :=
  match s with
  | [] => [[]]
  | c :: t =>
    if c = ',' then [] :: splitComma t
    else
      match splitComma t with
      | h :: r => (c :: h) :: r
      | [] => [[c]]

/-- Python's `s.split("-")[0]`: the text before the first dash. -/
def beforeDash (s : String) : String :=
  String.mk (s.data.takeWhile (fun c => c != '-'))

/-- Modelled from the spec: `conv_list_format` (defined in `utils`, outside
`src/`) joins a list of names by the configured list-join convention; blank
entries contribute nothing, so an all-blank list yields the empty string. -/
def conv_list_format (l : List String) : String :=
  String.intercalate ", " (l.filter (fun s => s != ""))

/-- `publisher_metadata` sub-record of a track. -/
structure PublisherMetadata where
  artist : Option String
  album_name : Option String
  c_line : Option String
deriving DecidableEq, Repr

/-- One entry of an album's `tracks` list. -/
structure AlbumTrack where
  id : Int
deriving DecidableEq, Repr

/-- An album record as returned by the resolve endpoint; `Option` marks keys
whose absence the code turns into the single-track defaults. -/
structure AlbumRecord where
  track_count : Option Int
  tracks : Option (List AlbumTrack)
deriving DecidableEq, Repr

/-- The `media` sub-record of a track. -/
structure MediaObj where
  transcodings : Option (List Transcoding)
deriving DecidableEq, Repr

/-- A track record as returned by `/tracks/<id>`; `Option` marks keys read
through `.get` with defaults. -/
structure TrackData where
  id : Int
  permalink_url : String
  title : String
  username : Option String
  publisher_metadata : Option PublisherMetadata
  media : Option MediaObj
  artwork_url : Option String
  description : Option String
  genre : Option String
  label_name : Option String
  release_date : Option String
  last_modified : Option String
  streamable : Option Bool
deriving DecidableEq, Repr

/-- A Python value that is a string, an int, or a bool — needed because the
resolver stores `'1'` (string) or a count (int) in the same field. -/
inductive PyVal where
  | str (s : String)
  | int (n : Int)
  | bool (b : Bool)
deriving DecidableEq, Repr

/-- The `info` dict built by `soundcloud_get_track_metadata`. -/
structure Info where
  image_url : String
  description : String
  genre : String
  label : Option String
  item_url : String
  release_year : String
  title : String
  track_number : PyVal
  total_tracks : PyVal
  length : String
  artists : String
  album_name : String
  album_type : String
  album_artists : String
  copyright : String
  is_playable : PyVal
  item_id : PyVal
deriving DecidableEq, Repr

/-- Modelled from the spec: `make_call` (defined in `utils`, outside `src/`)
performs a fetch; per spec sections 5 and 7 a failed optional fetch is
treated as "no data", so a failed text fetch yields the empty string. -/
def make_call_text (fetch : Except Unit String) : String :=
  match fetch with
  | Except.ok s => s
  | Except.error _ => ""

/-- Modelled from the spec: JSON form of `make_call` for the optional album
resolve; a failed fetch yields no record. -/
def make_call_json (fetch : Except Unit AlbumRecord) : Option AlbumRecord :=
  match fetch with
  | Except.ok a => some a
  | Except.error _ => none

/-- The literal marker heading searched for in the track's albums page. -/
def albumsMarker : List Char := "<h2>Appears in albums</h2>".data

/-- `re.search(r'href="([^"]*)"', s)`: the text between the first `href="`
and the next quote. -/
def searchHref (s : List Char) : Option (List Char) :=
  match findSub "href=\"".data s with
  | none => none
  | some i =>
    let rest := s.drop (i + 6)
    match findSub ['"'] rest with
    | none => none
    | some j => some (rest.take j)

/-- `re.search(r'<a[^>]*>(.*?)</a>', s)`: the first `<a`, its first
following `>`, then the lazily matched text before the next `</a>` (the
regex engine's retries at later `<a` positions on pathological inputs are
not modelled). -/
def searchAnchorText (s : List Char) : Option (List Char) :=
  match findSub "<a".data s with
  | none => none
  | some i =>
    let afterOpen := s.drop (i + 2)
    match findSub ['>'] afterOpen with
    | none => none
    | some j =>
      let body := afterOpen.drop (j + 1)
      match findSub "</a>".data body with
      | none => none
      | some k => some (body.take k)

/-- Lines 388-399 of `soundcloud_get_track_metadata`: the album record is
obtained only when the marker heading occurs in the fetched page and an
`href` follows it, in which case the resolve fetch's outcome decides. -/
def scrape_album_data (page : String) (albumFetch : Except Unit AlbumRecord) :
    Option AlbumRecord :=
  (findSub albumsMarker page.data).bind fun i =>
    (searchHref (page.data.drop i)).bind fun _ =>
      make_call_json albumFetch

/-- The counting loop of lines 415-419: bump the counter for every entry and
stop at the first id match. -/
def track_number_loop (tid : Int) (tracks : List AlbumTrack) (acc : Nat) : Nat :=
  match tracks with
  | [] => acc
  | t :: ts => if t.id = tid then acc + 1 else track_number_loop tid ts (acc + 1)

/-- 1-based position of the current track in the album's list (list length
when no entry matches). -/
def track_position (tracks : List AlbumTrack) (tid : Int) : Nat :=
  track_number_loop tid tracks 0

/-- The album branch of lines 413-420: both keys present give the counted
position; a missing key raises `KeyError`, caught into the defaults. -/
def album_fields_of (a : AlbumRecord) (tid : Int) : PyVal × PyVal × String :=
  match a.track_count, a.tracks with
  | some tc, some ts =>
    (PyVal.int tc, PyVal.int (track_position ts tid), "album")
  | _, _ => (PyVal.str "1", PyVal.str "1", "single")

/-- Lines 412-424: `(total_tracks, track_number, album_type)` from the album
record, falling to the single defaults on any `KeyError`/`TypeError`. -/
def album_fields (album_data : Option AlbumRecord) (tid : Int) :
    PyVal × PyVal × String :=
  match album_data with
  | some a => album_fields_of a tid
  | none => (PyVal.str "1", PyVal.str "1", "single")

/-- Whether an obtained album record carries both keys the counting code
reads. -/
def hasAlbumKeys (ad : Option AlbumRecord) : Bool :=
  match ad with
  | some a => a.track_count.isSome && a.tracks.isSome
  | none => false

/-- `track_data['publisher_metadata']['album_name']`, with the caught
`KeyError`/`TypeError` as `none`. -/
def pm_album_name (td : TrackData) : Option String :=
  td.publisher_metadata.bind (fun pm => pm.album_name)

/-- Lines 431-434: the anchor text scraped after the marker, or the
still-empty initial `album_name` when the marker or the anchor is
missing. -/
def scraped_album_name (start : Option Nat) (page : List Char) : String :=
  ((start.bind (fun i => searchAnchorText (page.drop i))).map String.mk).getD ""

/-- Lines 426-436: publisher album name first; else the scraped anchor text
when the marker was found; a scraped text starting with `"Users who like"`
is replaced by the track title. -/
def resolve_album_name (td : TrackData) (start : Option Nat)
    (page : List Char) : String :=
  match pm_album_name td with
  | some n => n
  | none =>
    if strStartsWith (scraped_album_name start page) "Users who like" then
      td.title
    else scraped_album_name start page

/-- Lines 401-410: split `publisher_metadata.artist` on commas, strip, join;
fall back to the uploader's username when the joined result is blank. -/
def resolve_artists (td : TrackData) : String :=
  let raw := (td.publisher_metadata.bind (fun pm => pm.artist)).getD ""
  let artists :=
    conv_list_format ((splitComma raw.data).map (fun l => pyStrip (String.mk l)))
  if artists = "" then td.username.getD "" else artists

/-- Lines 438-446: the copyright line, split and joined, when
`publisher_metadata` is present and `c_line` truthy; else empty. -/
def resolve_copyright (td : TrackData) : String :=
  match td.publisher_metadata with
  | some pm =>
    match pm.c_line with
    | some c =>
      if c = "" then ""
      else conv_list_format ((splitComma c.data).map (fun l => pyStrip (String.mk l)))
    | none => ""
  | none => ""

/-- Line 465: `str(track_data.get("media", {}).get("transcodings", [{}])[0]
.get("duration", 0))` — an absent `media` or `transcodings` key falls back
to a one-element placeholder list, but a present empty list is indexed and
raises `IndexError`. -/
def length_field_of (m : MediaObj) : Except String String :=
  match m.transcodings with
  | none => Except.ok "0"
  | some [] => Except.error "list index out of range"
  | some (t :: _) => Except.ok (toString (t.duration.getD 0))

/-- The same computation starting from the optional `media` key. -/
def length_field (media : Option MediaObj) : Except String String :=
  match media with
  | none => Except.ok "0"
  | some m => length_field_of m

/-- Line 460: year of `release_date`, else of `last_modified`. -/
def release_year_of (td : TrackData) : String :=
  if (td.release_date.getD "") = "" then beforeDash (td.last_modified.getD "")
  else beforeDash (td.release_date.getD "")

/-- The `info` record assembled on lines 448-473, given the fetched albums
page text, the album-resolve outcome and the computed `length` text. -/
def info_of (td : TrackData) (page : String)
    (albumFetch : Except Unit AlbumRecord) (len : String) : Info :=
  {
      image_url := td.artwork_url.getD ""
      description := td.description.getD ""
      genre := conv_list_format [td.genre.getD ""]
      label := if (td.label_name.getD "") = "" then none
               else some (td.label_name.getD "")
      item_url := td.permalink_url
      release_year := release_year_of td
      title := td.title
      track_number := (album_fields (scrape_album_data page albumFetch) td.id).2.1
      total_tracks := (album_fields (scrape_album_data page albumFetch) td.id).1
      length := len
      artists := resolve_artists td
      album_name := resolve_album_name td (findSub albumsMarker page.data) page.data
      album_type := (album_fields (scrape_album_data page albumFetch) td.id).2.2
      album_artists := td.username.getD ""
      copyright := resolve_copyright td
      is_playable := match td.streamable with
                     | some b => PyVal.bool b
                     | none => PyVal.str ""
      item_id := PyVal.int td.id }

/-- The pure tail of `soundcloud_get_track_metadata` (lines 401-475), given
the already-fetched albums page text and the album-resolve outcome: the
only failure point is the `length` computation's list indexing. -/
def build_info (td : TrackData) (page : String)
    (albumFetch : Except Unit AlbumRecord) : Except String Info :=
  match length_field td.media with
  | Except.error e => Except.error e
  | Except.ok len => Except.ok (info_of td page albumFetch len)

/-- `soundcloud_get_track_metadata` (lines 369-475): the mandatory track
fetch is the input record; the optional webpage fetch's outcome and the
optional album-resolve outcome are explicit parameters. -/
def soundcloud_get_track_metadata (td : TrackData)
    (webpageFetch : Except Unit String)
    (albumFetch : Except Unit AlbumRecord) : Except String Info :=
  build_info td (make_call_text webpageFetch) albumFetch

/-- An encrypted HQ transcoding (skipped by every filter). -/
def tEncHq : Transcoding :=
  { preset := some "aac_256k", quality := some "hq"
    format := some { mime_type := "audio/mp4", protocol := "encrypted-hls" }
    url := some "u1", duration := some 200000 }

/-- A usable HQ transcoding in the Opus family. -/
def tOpusHq : Transcoding :=
  { preset := some "opus_hq", quality := some "hq"
    format := some { mime_type := "audio/ogg", protocol := "hls" }
    url := some "u2", duration := some 200000 }

/-- A usable standard-quality AAC transcoding. -/
def tAacSq : Transcoding :=
  { preset := some "aac_160k", quality := some "sq"
    format := some { mime_type := "audio/mp4", protocol := "hls" }
    url := some "u3", duration := some 200000 }

/-- A lone encrypted transcoding. -/
def tEnc1 : Transcoding :=
  { preset := some "mp3_0", quality := some "sq"
    format := some { mime_type := "audio/mpeg", protocol := "encrypted-progressive" }
    url := some "u4", duration := some 200000 }

/-- A usable `opus_0` transcoding. -/
def tOpus0 : Transcoding :=
  { preset := some "opus_0", quality := some "sq"
    format := some { mime_type := "audio/ogg", protocol := "hls" }
    url := some "u5", duration := some 200000 }

/-- A usable `mp3_0` transcoding. -/
def tMp30 : Transcoding :=
  { preset := some "mp3_0", quality := some "sq"
    format := some { mime_type := "audio/mpeg", protocol := "progressive" }
    url := some "u6", duration := some 200000 }

/-- A usable `aac_0` transcoding. -/
def tAac0 : Transcoding :=
  { preset := some "aac_0", quality := some "sq"
    format := some { mime_type := "audio/mp4", protocol := "hls" }
    url := some "u7", duration := some 200000 }

/-- A three-track album whose second entry has id 2. -/
def exAlbum : AlbumRecord :=
  { track_count := some 3, tracks := some [{ id := 1 }, { id := 2 }, { id := 3 }] }

/-- A media object with one transcoding of duration 245000. -/
def exMedia : MediaObj := { transcodings := some [tMp30] }

/-- A plain track record (id 2, no publisher metadata, nonempty media). -/
def exTd : TrackData :=
  { id := 2, permalink_url := "https://soundcloud.com/u/t", title := "My Track"
    username := some "uploader", publisher_metadata := none, media := some exMedia
    artwork_url := some "art", description := some "d", genre := some "House"
    label_name := none, release_date := some "2021-05-01"
    last_modified := some "2022-01-01", streamable := some true }

/-- An albums page carrying the marker, an href and an anchor text. -/
def exPage : String :=
  "<h2>Appears in albums</h2><a href=\"/u/sets/alb\">My Album</a>"

/-- An albums page whose first anchor text is the unrelated-section
heading. -/
def uwlPage : String :=
  "<h2>Appears in albums</h2><a href=\"/x\">Users who like similar tracks</a>"

/-- Publisher metadata carrying an album name. -/
def exPm : PublisherMetadata :=
  { artist := some "A, B", album_name := some "Pub Album", c_line := some "2021 L" }

/-- The plain track record with publisher metadata attached. -/
def exTdPm : TrackData := { exTd with publisher_metadata := some exPm }

/-- A track record whose `media.transcodings` is present but empty. -/
def cexTd9 : TrackData := { exTd with media := some { transcodings := some [] } }

/-- The head of a filtered list is the first element satisfying the
predicate. -/
theorem head_of_filter {α : Type} (p : α → Bool) (l : List α) :
    (l.filter p).head? = l.find? p := by
  induction l with
  | nil => rfl
  | cons a t ih =>
    cases h : p a with
    | true => simp [List.filter_cons, h]
    | false => simp [List.filter_cons, h, ih]

/-- Finding under a conjunction of predicates is finding the second among
survivors of the first. -/
theorem find_and_filter {α : Type} (p q : α → Bool) (l : List α) :
    l.find? (fun t => p t && q t) = (l.filter p).find? q := by
  induction l with
  | nil => rfl
  | cons a t ih =>
    cases hp : p a with
    | true =>
      cases hq : q a with
      | true =>
        rw [List.find?_cons_of_pos _ (by simp [hp, hq]),
          List.filter_cons_of_pos hp, List.find?_cons_of_pos _ hq]
      | false =>
        rw [List.find?_cons_of_neg _ (by simp [hp, hq]),
          List.filter_cons_of_pos hp, List.find?_cons_of_neg _ (by simp [hq]), ih]
    | false =>
      rw [List.find?_cons_of_neg _ (by simp [hp]),
        List.filter_cons_of_neg (by simp [hp]), ih]

/-- The quality-only filter call, rewritten as a plain list filter. -/
theorem filter_transcodings_quality (l : List Transcoding) (q : String) :
    filter_transcodings l (some q) none
      = l.filter (fun t => usableB t && (qualityOf t == some q)) := by
  unfold filter_transcodings usableB
  exact List.filter_congr (fun t _ => by rw [Bool.and_true])

/-- The preset-only filter call, rewritten as a plain list filter. -/
theorem filter_transcodings_preset (l : List Transcoding) (p : String) :
    filter_transcodings l none (some p)
      = l.filter (fun t => usableB t && strStartsWith (presetOf t) p) := by
  unfold filter_transcodings usableB
  refine List.filter_congr (fun t _ => ?_)
  show (((!strContains (protocolOf t) "encrypted") && true)
        && strStartsWith (presetOf t) p)
    = ((!strContains (protocolOf t) "encrypted") && strStartsWith (presetOf t) p)
  rw [Bool.and_true]

/-- When every entry is encrypted, every filter call returns nothing. -/
theorem filter_transcodings_nil_of_encrypted (l : List Transcoding)
    (q pp : Option String)
    (h : ∀ t ∈ l, strContains (protocolOf t) "encrypted" = true) :
    filter_transcodings l q pp = [] := by
  induction l with
  | nil => rfl
  | cons a t ih =>
    have ha := h a (by simp)
    have ht : ∀ u ∈ t, strContains (protocolOf u) "encrypted" = true :=
      fun u hu => h u (by simp [hu])
    have := ih ht
    simp [filter_transcodings, List.filter_cons, ha] at this ⊢
    exact this

/-- A nonempty list is not `isEmpty`. -/
theorem isEmpty_false_of_ne_nil {α : Type} {l : List α} (h : l ≠ []) :
    l.isEmpty = false := by
  cases l with
  | nil => exact absurd rfl h
  | cons a t => rfl

/-- Selecting with `hq = false` returns whatever the codec cascade picks,
provided the input list is nonempty. -/
theorem select_false_of_after_hq (l : List Transcoding) (t : Transcoding)
    (hne : l ≠ []) (h : choose_after_hq l = some t) :
    select_stream l false = Except.ok t := by
  have hEmpty := isEmpty_false_of_ne_nil hne
  have hchoose : choose_transcoding l false = some t := by
    show choose_after_hq l = some t
    exact h
  simp [select_stream, hEmpty, hchoose]

/-- The cascade returns the first usable AAC entry when one exists. -/
theorem after_hq_aac (l : List Transcoding) (t : Transcoding)
    (hA : l.find? (fun u => usableB u && strStartsWith (presetOf u) "aac_")
            = some t) :
    choose_after_hq l = some t := by
  unfold choose_after_hq
  rw [filter_transcodings_preset, head_of_filter, hA]

/-- With no usable AAC entry, the cascade returns the first usable MP3
entry when one exists. -/
theorem after_hq_mp3 (l : List Transcoding) (t : Transcoding)
    (hA : l.find? (fun u => usableB u && strStartsWith (presetOf u) "aac_")
            = none)
    (hM : l.find? (fun u => usableB u && strStartsWith (presetOf u) "mp3_")
            = some t) :
    choose_after_hq l = some t := by
  unfold choose_after_hq
  rw [filter_transcodings_preset, head_of_filter, hA,
    filter_transcodings_preset, head_of_filter, hM]

/-- With neither usable AAC nor MP3 entries, the cascade returns the first
usable Opus entry when one exists. -/
theorem after_hq_opus (l : List Transcoding) (t : Transcoding)
    (hA : l.find? (fun u => usableB u && strStartsWith (presetOf u) "aac_")
            = none)
    (hM : l.find? (fun u => usableB u && strStartsWith (presetOf u) "mp3_")
            = none)
    (hO : l.find? (fun u => usableB u && strStartsWith (presetOf u) "opus_")
            = some t) :
    choose_after_hq l = some t := by
  unfold choose_after_hq
  rw [filter_transcodings_preset, head_of_filter, hA,
    filter_transcodings_preset, head_of_filter, hM,
    filter_transcodings_preset, head_of_filter, hO]

/-- C1: for every transcoding list containing a non-encrypted entry of
quality `"hq"`, selection with `hq = true` returns the first such entry in
list order, whatever its preset family. -/
theorem hq_selection_first (l : List Transcoding) (t : Transcoding)
    (h : l.find? (fun u => usableB u && (qualityOf u == some "hq")) = some t) :
    select_stream l true = Except.ok t := by
  have hne : l ≠ [] := List.ne_nil_of_mem (List.mem_of_find?_eq_some h)
  have hEmpty := isEmpty_false_of_ne_nil hne
  have hchoose : choose_transcoding l true = some t := by
    show (match (filter_transcodings l (some "hq") none).head? with
          | some c => some c
          | none => choose_after_hq l) = some t
    rw [filter_transcodings_quality, head_of_filter, h]
  simp [select_stream, hEmpty, hchoose]

/-- Witness for C1 on a concrete list: an encrypted HQ entry is skipped and
the Opus-family HQ entry is returned ahead of a usable AAC entry. -/
theorem hq_selection_first_witness :
    ([tEncHq, tOpusHq, tAacSq].find?
        (fun u => usableB u && (qualityOf u == some "hq")) = some tOpusHq) ∧
    select_stream [tEncHq, tOpusHq, tAacSq] true = Except.ok tOpusHq :=
  ⟨by decide, hq_selection_first _ _ (by decide)⟩

/-- C2: for every transcoding list that is empty or all-encrypted, and for
either value of `hq`, selection fails with an error rather than returning a
transcoding (the spec's `NoUsableStream`). -/
theorem no_usable_stream (l : List Transcoding) (hq : Bool)
    (h : ∀ t ∈ l, strContains (protocolOf t) "encrypted" = true) :
    ∃ msg, select_stream l hq = Except.error msg := by
  cases l with
  | nil => exact ⟨"No transcodings found or track not streamable.", rfl⟩
  | cons a r =>
    refine ⟨"No suitable transcoding found.", ?_⟩
    have hH := filter_transcodings_nil_of_encrypted (a :: r) (some "hq") none h
    have hA := filter_transcodings_nil_of_encrypted (a :: r) none (some "aac_") h
    have hM := filter_transcodings_nil_of_encrypted (a :: r) none (some "mp3_") h
    have hO := filter_transcodings_nil_of_encrypted (a :: r) none (some "opus_") h
    simp [select_stream, choose_transcoding, choose_after_hq, hH, hA, hM, hO]

/-- Witness for C2 on a concrete one-element, all-encrypted list. -/
theorem no_usable_stream_witness :
    (∀ t ∈ [tEnc1], strContains (protocolOf t) "encrypted" = true) ∧
    ∃ msg, select_stream [tEnc1] true = Except.error msg :=
  ⟨by decide, no_usable_stream _ _ (by decide)⟩

/-- C3: with `hq = false`, a list whose usable entries are `opus_0`,
`mp3_0`, `aac_0` in that order yields the `aac_0` entry; in general the
first usable AAC-preset entry beats every MP3 entry, which beats every Opus
entry, independent of list position. -/
theorem codec_fallback_order (l : List Transcoding) :
    (∀ a b c, l.filter usableB = [a, b, c] → presetOf a = "opus_0" →
        presetOf b = "mp3_0" → presetOf c = "aac_0" →
        select_stream l false = Except.ok c) ∧
    (∀ t, l.find? (fun u => usableB u && strStartsWith (presetOf u) "aac_")
            = some t →
        select_stream l false = Except.ok t) ∧
    (l.find? (fun u => usableB u && strStartsWith (presetOf u) "aac_") = none →
      ∀ t, l.find? (fun u => usableB u && strStartsWith (presetOf u) "mp3_")
            = some t →
        select_stream l false = Except.ok t) ∧
    (l.find? (fun u => usableB u && strStartsWith (presetOf u) "aac_") = none →
      l.find? (fun u => usableB u && strStartsWith (presetOf u) "mp3_") = none →
      ∀ t, l.find? (fun u => usableB u && strStartsWith (presetOf u) "opus_")
            = some t →
        select_stream l false = Except.ok t) := by
  have haac : ∀ t,
      l.find? (fun u => usableB u && strStartsWith (presetOf u) "aac_")
        = some t →
      select_stream l false = Except.ok t := by
    intro t h
    exact select_false_of_after_hq l t
      (List.ne_nil_of_mem (List.mem_of_find?_eq_some h)) (after_hq_aac l t h)
  refine ⟨?_, haac, ?_, ?_⟩
  · intro a b c hf ha hb hc
    apply haac
    rw [find_and_filter, hf]
    simp only [List.find?, ha, hb, hc]
    rfl
  · intro hA t hM
    exact select_false_of_after_hq l t
      (List.ne_nil_of_mem (List.mem_of_find?_eq_some hM)) (after_hq_mp3 l t hA hM)
  · intro hA hM t hO
    exact select_false_of_after_hq l t
      (List.ne_nil_of_mem (List.mem_of_find?_eq_some hO)) (after_hq_opus l t hA hM hO)

/-- Witness for C3 on the concrete `opus_0`, `mp3_0`, `aac_0` list. -/
theorem codec_fallback_order_witness :
    ([tOpus0, tMp30, tAac0].filter usableB = [tOpus0, tMp30, tAac0] ∧
      presetOf tOpus0 = "opus_0" ∧ presetOf tMp30 = "mp3_0" ∧
      presetOf tAac0 = "aac_0") ∧
    select_stream [tOpus0, tMp30, tAac0] false = Except.ok tAac0 :=
  ⟨by decide,
    (codec_fallback_order _).1 tOpus0 tMp30 tAac0
      (by decide) (by decide) (by decide) (by decide)⟩

/-- Counterexample to C4 as stated: the claim's case analysis on the raw
string sends `"AUDIO/MP4"` (which contains none of the lowercase needles)
to the `"mp3"` default, but the code lower-cases first and answers
`"m4a"`. -/
theorem guess_container_counterexample :
    guess_container_claimed "AUDIO/MP4" = "mp3" ∧
    guess_container_from_mime "AUDIO/MP4" = "m4a" := by
  exact ⟨by decide, by decide⟩

/-- C4 (amended): container inference is total and equals the claimed case
analysis applied to the lower-cased input; the four concrete mime types map
as stated, and the result is always one of the three containers. -/
theorem guess_container_total :
    (∀ s, guess_container_from_mime s = guess_container_claimed (pyLower s)) ∧
    guess_container_from_mime "audio/mpeg" = "mp3" ∧
    guess_container_from_mime "audio/mp4" = "m4a" ∧
    guess_container_from_mime "audio/ogg" = "ogg" ∧
    guess_container_from_mime "audio/x-unknown" = "mp3" ∧
    (∀ s, guess_container_from_mime s = "mp3" ∨
      guess_container_from_mime s = "m4a" ∨
      guess_container_from_mime s = "ogg") := by
  have hr : ∀ s2, guess_container_claimed s2 = "mp3" ∨
      guess_container_claimed s2 = "m4a" ∨ guess_container_claimed s2 = "ogg" := by
    intro s2
    unfold guess_container_claimed
    split
    · exact Or.inl rfl
    split
    · exact Or.inr (Or.inl rfl)
    split
    · exact Or.inr (Or.inr rfl)
    · exact Or.inl rfl
  exact ⟨fun s => rfl, by decide, by decide, by decide, by decide,
    fun s => hr (pyLower s)⟩

/-- C5: the `return` of `soundcloud_download_track` sits inside the
`else:` branch, so with no caller-supplied output path the function yields
`None` instead of the synthesized `soundcloud_<item_id>.<container>` the
spec describes; with a supplied path the extension is replaced as
specified. -/
theorem output_path_fall_through :
    soundcloud_output_path "123" "audio/mpeg" none = none ∧
    soundcloud_output_path_spec "123" "audio/mpeg" none = "soundcloud_123.mp3" ∧
    soundcloud_output_path "123" "audio/mpeg" (some "/tmp/out.wav")
      = some "/tmp/out.mp3" ∧
    soundcloud_output_path_spec "123" "audio/mpeg" (some "/tmp/out.wav")
      = "/tmp/out.mp3" := by
  exact ⟨by decide, by decide, by decide, by decide⟩

/-- No marker heading in the page means no album record. -/
theorem scrape_no_marker (page : String) (a : Except Unit AlbumRecord)
    (h : findSub albumsMarker page.data = none) :
    scrape_album_data page a = none := by
  simp only [scrape_album_data, h, Option.none_bind]

/-- A marker with no following `href` means no album record. -/
theorem scrape_no_href (page : String) (a : Except Unit AlbumRecord) (i : Nat)
    (h1 : findSub albumsMarker page.data = some i)
    (h2 : searchHref (page.data.drop i) = none) :
    scrape_album_data page a = none := by
  simp only [scrape_album_data, h1, h2, Option.some_bind, Option.none_bind]

/-- A failed album-resolve fetch means no album record, whatever the page. -/
theorem scrape_fetch_error (page : String) :
    scrape_album_data page (Except.error ()) = none := by
  unfold scrape_album_data
  cases findSub albumsMarker page.data with
  | none => rfl
  | some i =>
    show (searchHref (page.data.drop i)).bind _ = none
    cases searchHref (page.data.drop i) with
    | none => rfl
    | some r => rfl

/-- An `ok` result of `build_info` is the assembled record for the computed
length. -/
theorem build_info_ok_elim (td : TrackData) (page : String)
    (a : Except Unit AlbumRecord) {info : Info}
    (h : build_info td page a = Except.ok info) :
    ∃ len, length_field td.media = Except.ok len ∧
      info = info_of td page a len := by
  unfold build_info at h
  cases hl : length_field td.media with
  | error e =>
    rw [hl] at h
    exact Except.noConfusion h
  | ok len =>
    rw [hl] at h
    exact ⟨len, rfl, (Except.ok.inj h).symm⟩

/-- An `error` result of `build_info` is exactly the `length` computation's
error. -/
theorem build_info_error_elim (td : TrackData) (page : String)
    (a : Except Unit AlbumRecord) {e : String}
    (h : build_info td page a = Except.error e) :
    length_field td.media = Except.error e := by
  unfold build_info at h
  cases hl : length_field td.media with
  | error e2 =>
    rw [hl] at h
    simpa using h
  | ok len =>
    rw [hl] at h
    exact Except.noConfusion h

/-- With no album record obtained, the assembled record carries the single
defaults. -/
theorem info_of_defaults (td : TrackData) (page : String)
    (a : Except Unit AlbumRecord) (len : String)
    (h : scrape_album_data page a = none) :
    (info_of td page a len).track_number = PyVal.str "1" ∧
    (info_of td page a len).total_tracks = PyVal.str "1" ∧
    (info_of td page a len).album_type = "single" := by
  refine ⟨?_, ?_, ?_⟩
  · show (album_fields (scrape_album_data page a) td.id).2.1 = PyVal.str "1"
    rw [h]
    rfl
  · show (album_fields (scrape_album_data page a) td.id).1 = PyVal.str "1"
    rw [h]
    rfl
  · show (album_fields (scrape_album_data page a) td.id).2.2 = "single"
    rw [h]
    rfl

/-- With no marker index, the album-name resolution ignores the page. -/
theorem resolve_album_name_start_none (td : TrackData) (p1 p2 : List Char) :
    resolve_album_name td none p1 = resolve_album_name td none p2 := by
  unfold resolve_album_name
  cases pm_album_name td with
  | some n => rfl
  | none => rfl

/-- C6: a failed webpage fetch, a page without the marker heading, a marker
without a following `href`, and a failed album-resolve fetch each leave the
metadata result in the no-album-context state — identical to the
no-data run where observable, with the single defaults in the album
fields — and any error the function does return is the `length`
computation's own, never the optional fetches'. -/
theorem metadata_optional_failures_absorbed (td : TrackData)
    (a : Except Unit AlbumRecord) (s : String) :
    (soundcloud_get_track_metadata td (Except.error ()) a
      = soundcloud_get_track_metadata td (Except.ok "") (Except.error ())) ∧
    (findSub albumsMarker s.data = none →
      soundcloud_get_track_metadata td (Except.ok s) a
        = soundcloud_get_track_metadata td (Except.ok "") (Except.error ())) ∧
    (∀ i, findSub albumsMarker s.data = some i →
      searchHref (s.data.drop i) = none →
      ∀ info, soundcloud_get_track_metadata td (Except.ok s) a = Except.ok info →
        info.track_number = PyVal.str "1" ∧ info.total_tracks = PyVal.str "1" ∧
        info.album_type = "single") ∧
    (∀ info, soundcloud_get_track_metadata td (Except.ok s) (Except.error ())
        = Except.ok info →
      info.track_number = PyVal.str "1" ∧ info.total_tracks = PyVal.str "1" ∧
      info.album_type = "single") ∧
    (∀ e, soundcloud_get_track_metadata td (Except.ok s) a = Except.error e →
      length_field td.media = Except.error e) := by
  refine ⟨?_, ?_, ?_, ?_, ?_⟩
  · show build_info td "" a = build_info td "" (Except.error ())
    unfold build_info
    cases hl : length_field td.media with
    | error e => rfl
    | ok len =>
      show Except.ok (info_of td "" a len)
        = Except.ok (info_of td "" (Except.error ()) len)
      refine congrArg Except.ok ?_
      unfold info_of
      rw [scrape_no_marker "" a rfl, scrape_fetch_error ""]
  · intro hm
    show build_info td s a = build_info td "" (Except.error ())
    unfold build_info
    cases hl : length_field td.media with
    | error e => rfl
    | ok len =>
      show Except.ok (info_of td s a len)
        = Except.ok (info_of td "" (Except.error ()) len)
      refine congrArg Except.ok ?_
      unfold info_of
      rw [scrape_no_marker s a hm, scrape_fetch_error "", hm,
        show findSub albumsMarker ("" : String).data = (none : Option Nat) from rfl,
        resolve_album_name_start_none td s.data ("" : String).data]
  · intro i hm hhref info hinfo
    have h2 : build_info td s a = Except.ok info := hinfo
    obtain ⟨len, hl, he⟩ := build_info_ok_elim td s a h2
    subst he
    exact info_of_defaults td s a len (scrape_no_href s a i hm hhref)
  · intro info hinfo
    have h2 : build_info td s (Except.error ()) = Except.ok info := hinfo
    obtain ⟨len, hl, he⟩ := build_info_ok_elim td s (Except.error ()) h2
    subst he
    exact info_of_defaults td s (Except.error ()) len (scrape_fetch_error s)
  · intro e he
    exact build_info_error_elim td s a (he : build_info td s a = Except.error e)

/-- Witness for C6: on a concrete track record, both a failed webpage fetch
and a marker-free page give the same result as the no-data run. -/
theorem metadata_optional_failures_witness :
    (findSub albumsMarker "plain page".data = none) ∧
    soundcloud_get_track_metadata exTd (Except.error ()) (Except.ok exAlbum)
      = soundcloud_get_track_metadata exTd (Except.ok "") (Except.error ()) ∧
    soundcloud_get_track_metadata exTd (Except.ok "plain page") (Except.ok exAlbum)
      = soundcloud_get_track_metadata exTd (Except.ok "") (Except.error ()) :=
  ⟨by decide,
    (metadata_optional_failures_absorbed exTd (Except.ok exAlbum) "plain page").1,
    (metadata_optional_failures_absorbed exTd (Except.ok exAlbum) "plain page").2.1
      (by decide)⟩

/-- Counting over a list with no matching id adds the whole list length. -/
theorem track_number_loop_all_miss (tid : Int) (ts : List AlbumTrack)
    (h : ∀ t ∈ ts, t.id ≠ tid) :
    ∀ acc, track_number_loop tid ts acc = acc + ts.length := by
  induction ts with
  | nil => intro acc; rfl
  | cons t ts ih =>
    intro acc
    have ht : ¬(t.id = tid) := h t (by simp)
    show (if t.id = tid then acc + 1 else track_number_loop tid ts (acc + 1))
        = acc + (ts.length + 1)
    rw [if_neg ht, ih (fun u hu => h u (by simp [hu])) (acc + 1)]
    omega

/-- Counting stops at the first matching id, yielding its 1-based
position. -/
theorem track_number_loop_first_match (tid : Int) :
    ∀ (ts : List AlbumTrack) (k : Nat) (hk : k < ts.length),
      (ts.get ⟨k, hk⟩).id = tid →
      (∀ j (hj : j < ts.length), j < k → (ts.get ⟨j, hj⟩).id ≠ tid) →
      ∀ acc, track_number_loop tid ts acc = acc + k + 1 := by
  intro ts
  induction ts with
  | nil => intro k hk; exact absurd hk (by simp)
  | cons t ts ih =>
    intro k hk hmatch hbefore acc
    cases k with
    | zero =>
      have h0 : t.id = tid := hmatch
      show (if t.id = tid then acc + 1 else track_number_loop tid ts (acc + 1))
          = acc + 0 + 1
      rw [if_pos h0]
    | succ k2 =>
      have ht : t.id ≠ tid := hbefore 0 (by simp) (Nat.succ_pos k2)
      show (if t.id = tid then acc + 1 else track_number_loop tid ts (acc + 1))
          = acc + (k2 + 1) + 1
      rw [if_neg ht,
        ih k2 (Nat.lt_of_succ_lt_succ hk) hmatch
          (fun j hj hlt => hbefore (j + 1) (Nat.succ_lt_succ hj)
            (Nat.succ_lt_succ hlt))
          (acc + 1)]
      omega

/-- C7: an obtained album record with both keys yields `total_tracks` equal
to `track_count`, `album_type` `"album"`, and `track_number` equal to the
1-based position of the first id match (the full list length when nothing
matches); on the concrete three-track album with current id 2 the resolver
reports track 2 of 3 on an album. -/
theorem track_number_scan (a : AlbumRecord) (tc : Int) (ts : List AlbumTrack)
    (tid : Int) (h1 : a.track_count = some tc) (h2 : a.tracks = some ts) :
    album_fields (some a) tid
      = (PyVal.int tc, PyVal.int (track_position ts tid), "album") ∧
    (∀ k (hk : k < ts.length), (ts.get ⟨k, hk⟩).id = tid →
      (∀ j (hj : j < ts.length), j < k → (ts.get ⟨j, hj⟩).id ≠ tid) →
      track_position ts tid = k + 1) ∧
    ((∀ t ∈ ts, t.id ≠ tid) → track_position ts tid = ts.length) ∧
    ((soundcloud_get_track_metadata exTd (Except.ok exPage)
        (Except.ok exAlbum)).map
        (fun info => (info.track_number, info.total_tracks, info.album_type))
      = Except.ok (PyVal.int 2, PyVal.int 3, "album")) := by
  refine ⟨?_, ?_, ?_, ?_⟩
  · show album_fields_of a tid
      = (PyVal.int tc, PyVal.int (track_position ts tid), "album")
    unfold album_fields_of
    rw [h1, h2]
  · intro k hk hmatch hbefore
    have hkey := track_number_loop_first_match tid ts k hk hmatch hbefore 0
    unfold track_position
    rw [hkey]
    omega
  · intro h
    have hkey := track_number_loop_all_miss tid ts h 0
    unfold track_position
    rw [hkey]
    omega
  · rfl

/-- Witness for C7 at the concrete album record. -/
theorem track_number_scan_witness :
    (exAlbum.track_count = some 3 ∧
      exAlbum.tracks = some [{ id := 1 }, { id := 2 }, { id := 3 }]) ∧
    album_fields (some exAlbum) 2 = (PyVal.int 3, PyVal.int 2, "album") :=
  ⟨⟨rfl, rfl⟩, by
    have h :=
      (track_number_scan exAlbum 3 [{ id := 1 }, { id := 2 }, { id := 3 }] 2
        rfl rfl).1
    rw [h]
    decide⟩

/-- Reading the publisher album name through both present layers. -/
theorem pm_album_name_some (td : TrackData) (pm : PublisherMetadata)
    (n : String) (h1 : td.publisher_metadata = some pm)
    (h2 : pm.album_name = some n) : pm_album_name td = some n := by
  unfold pm_album_name
  rw [h1]
  show pm.album_name = some n
  exact h2

/-- C8: a present `publisher_metadata.album_name` is returned verbatim,
marker or not; when it is absent and the scraped anchor text starts with
`"Users who like"`, the resolver answers the track's own title. -/
theorem album_name_resolution (td : TrackData) (a : Except Unit AlbumRecord)
    (s : String) :
    (∀ pm n, td.publisher_metadata = some pm → pm.album_name = some n →
      ∀ info, soundcloud_get_track_metadata td (Except.ok s) a = Except.ok info →
        info.album_name = n) ∧
    (pm_album_name td = none →
      ∀ i, findSub albumsMarker s.data = some i →
      ∀ t, searchAnchorText (s.data.drop i) = some t →
      strStartsWith (String.mk t) "Users who like" = true →
      ∀ info, soundcloud_get_track_metadata td (Except.ok s) a = Except.ok info →
        info.album_name = td.title) := by
  constructor
  · intro pm n hpm hn info hinfo
    have h2 : build_info td s a = Except.ok info := hinfo
    obtain ⟨len, hl, he⟩ := build_info_ok_elim td s a h2
    subst he
    show resolve_album_name td (findSub albumsMarker s.data) s.data = n
    unfold resolve_album_name
    rw [pm_album_name_some td pm n hpm hn]
  · intro hpm i hm t ht hstart info hinfo
    have h2 : build_info td s a = Except.ok info := hinfo
    obtain ⟨len, hl, he⟩ := build_info_ok_elim td s a h2
    subst he
    show resolve_album_name td (findSub albumsMarker s.data) s.data = td.title
    have hs : scraped_album_name (some i) s.data = String.mk t := by
      simp [scraped_album_name, ht]
    unfold resolve_album_name
    rw [hpm, hm, hs, if_pos hstart]

/-- Witness for C8: the publisher name wins on a marker-bearing page, and
the `"Users who like"` scrape falls back to the title, on concrete data. -/
theorem album_name_resolution_witness :
    ((soundcloud_get_track_metadata exTdPm (Except.ok exPage)
        (Except.ok exAlbum)).map (fun i => i.album_name)
      = Except.ok "Pub Album") ∧
    ((soundcloud_get_track_metadata exTd (Except.ok uwlPage)
        (Except.ok exAlbum)).map (fun i => i.album_name)
      = Except.ok "My Track") := by
  constructor
  · cases hx : soundcloud_get_track_metadata exTdPm (Except.ok exPage)
        (Except.ok exAlbum) with
    | error e =>
      have h3 := build_info_error_elim exTdPm exPage (Except.ok exAlbum)
        (hx : build_info exTdPm exPage (Except.ok exAlbum) = Except.error e)
      rw [show length_field exTdPm.media = Except.ok "200000" from rfl] at h3
      exact Except.noConfusion h3
    | ok info =>
      have hres := (album_name_resolution exTdPm (Except.ok exAlbum) exPage).1
        exPm "Pub Album" rfl rfl info hx
      simp only [Except.map, hres]
  · cases hx : soundcloud_get_track_metadata exTd (Except.ok uwlPage)
        (Except.ok exAlbum) with
    | error e =>
      have h3 := build_info_error_elim exTd uwlPage (Except.ok exAlbum)
        (hx : build_info exTd uwlPage (Except.ok exAlbum) = Except.error e)
      rw [show length_field exTd.media = Except.ok "200000" from rfl] at h3
      exact Except.noConfusion h3
    | ok info =>
      have hres := (album_name_resolution exTd (Except.ok exAlbum) uwlPage).2
        (by decide) 0 (by decide) "Users who like similar tracks".data
        (by decide) (by decide) info hx
      simp only [Except.map, hres]
      rfl

/-- Counterexample to C9 as stated: a present-but-empty
`media.transcodings` list is indexed at `[0]` and the resolver raises
`IndexError` instead of defaulting the length to `"0"`. -/
theorem metadata_empty_transcodings_raises :
    soundcloud_get_track_metadata cexTd9 (Except.ok "") (Except.error ())
      = Except.error "list index out of range" := by
  rfl

/-- C9 (amended): for every track record whose `media.transcodings`, when
present, is nonempty, the resolver returns a fully populated record whose
`length` is the first transcoding's duration as text, `"0"` when the
`media` or `transcodings` key is absent; a present empty list instead
raises. -/
theorem metadata_total_unless_empty_transcodings (td : TrackData)
    (w : Except Unit String) (a : Except Unit AlbumRecord)
    (h : td.media = none ∨ ∃ m, td.media = some m ∧
        (m.transcodings = none ∨ ∃ t ts, m.transcodings = some (t :: ts))) :
    ∃ info, soundcloud_get_track_metadata td w a = Except.ok info ∧
      (td.media = none → info.length = "0") ∧
      (∀ m, td.media = some m → m.transcodings = none → info.length = "0") ∧
      (∀ m t ts, td.media = some m → m.transcodings = some (t :: ts) →
        info.length = toString (t.duration.getD 0)) := by
  have build : ∀ len, length_field td.media = Except.ok len →
      soundcloud_get_track_metadata td w a
        = Except.ok (info_of td (make_call_text w) a len) := by
    intro len hl
    show build_info td (make_call_text w) a = _
    unfold build_info
    rw [hl]
  rcases h with hnone | ⟨m, hm, hmt | ⟨t, ts, hts⟩⟩
  · have hl : length_field td.media = Except.ok "0" := by
      unfold length_field
      rw [hnone]
    refine ⟨info_of td (make_call_text w) a "0", build "0" hl, fun _ => rfl,
      fun m2 hm2 _ => rfl, fun m2 t2 ts2 hm2 hts2 => ?_⟩
    rw [hnone] at hm2
    exact Option.noConfusion hm2
  · have hl : length_field td.media = Except.ok "0" := by
      unfold length_field
      rw [hm]
      show length_field_of m = Except.ok "0"
      unfold length_field_of
      rw [hmt]
    refine ⟨info_of td (make_call_text w) a "0", build "0" hl, fun _ => rfl,
      fun m2 hm2 _ => rfl, fun m2 t2 ts2 hm2 hts2 => ?_⟩
    rw [hm] at hm2
    obtain rfl := Option.some.inj hm2
    rw [hmt] at hts2
    exact Option.noConfusion hts2
  · have hl : length_field td.media = Except.ok (toString (t.duration.getD 0)) := by
      unfold length_field
      rw [hm]
      show length_field_of m = Except.ok (toString (t.duration.getD 0))
      unfold length_field_of
      rw [hts]
    refine ⟨info_of td (make_call_text w) a (toString (t.duration.getD 0)),
      build _ hl, fun hn => ?_, fun m2 hm2 hmt2 => ?_,
      fun m2 t2 ts2 hm2 hts2 => ?_⟩
    · rw [hm] at hn
      exact Option.noConfusion hn
    · rw [hm] at hm2
      obtain rfl := Option.some.inj hm2
      rw [hts] at hmt2
      exact Option.noConfusion hmt2
    · rw [hm] at hm2
      obtain rfl := Option.some.inj hm2
      rw [hts] at hts2
      have h5 := Option.some.inj hts2
      injection h5 with h6 h7
      show toString (t.duration.getD 0) = toString (t2.duration.getD 0)
      rw [h6]

/-- Witness for C9 (amended) on the concrete one-transcoding record. -/
theorem metadata_total_witness :
    ∃ info, soundcloud_get_track_metadata exTd (Except.ok "") (Except.error ())
        = Except.ok info ∧
      (exTd.media = none → info.length = "0") ∧
      (∀ m, exTd.media = some m → m.transcodings = none → info.length = "0") ∧
      (∀ m t ts, exTd.media = some m → m.transcodings = some (t :: ts) →
        info.length = toString (t.duration.getD 0)) :=
  metadata_total_unless_empty_transcodings exTd (Except.ok "") (Except.error ())
    (Or.inr ⟨exMedia, rfl, Or.inr ⟨tMp30, [], rfl⟩⟩)

/-- C10: the track-count fields are the string `"1"` exactly when the album
branch falls to its defaults, and integer values whenever an album record
with both `track_count` and `tracks` is obtained; accordingly every
successful resolver run carries either two string-`"1"` fields or two
integer fields. -/
theorem track_fields_string_or_int (ad : Option AlbumRecord) (tid : Int) :
    (hasAlbumKeys ad = false →
      album_fields ad tid = (PyVal.str "1", PyVal.str "1", "single")) ∧
    (hasAlbumKeys ad = true →
      ∃ n tn : Int, album_fields ad tid = (PyVal.int n, PyVal.int tn, "album")) ∧
    (∀ td w a info,
      soundcloud_get_track_metadata td w a = Except.ok info →
      (info.track_number = PyVal.str "1" ∧ info.total_tracks = PyVal.str "1") ∨
      ∃ n tn : Int, info.track_number = PyVal.int tn ∧
        info.total_tracks = PyVal.int n) := by
  have key1 : ∀ (ad2 : Option AlbumRecord) (t2 : Int), hasAlbumKeys ad2 = false →
      album_fields ad2 t2 = (PyVal.str "1", PyVal.str "1", "single") := by
    intro ad2 t2 hfalse
    cases ad2 with
    | none => rfl
    | some a =>
      show album_fields_of a t2 = _
      unfold album_fields_of
      simp only [hasAlbumKeys] at hfalse
      cases htc : a.track_count with
      | none => rfl
      | some tc =>
        cases hts : a.tracks with
        | none => rfl
        | some ts =>
          rw [htc, hts] at hfalse
          simp at hfalse
  have key2 : ∀ (ad2 : Option AlbumRecord) (t2 : Int), hasAlbumKeys ad2 = true →
      ∃ n tn : Int, album_fields ad2 t2 = (PyVal.int n, PyVal.int tn, "album") := by
    intro ad2 t2 htrue
    cases ad2 with
    | none => exact absurd htrue (by simp [hasAlbumKeys])
    | some a =>
      simp only [hasAlbumKeys] at htrue
      cases htc : a.track_count with
      | none =>
        rw [htc] at htrue
        simp at htrue
      | some tc =>
        cases hts : a.tracks with
        | none =>
          rw [htc, hts] at htrue
          simp at htrue
        | some ts =>
          refine ⟨tc, (track_position ts t2 : Int), ?_⟩
          show album_fields_of a t2 = _
          unfold album_fields_of
          rw [htc, hts]
  refine ⟨key1 ad tid, key2 ad tid, ?_⟩
  intro td w a info hinfo
  obtain ⟨len, hl, he⟩ := build_info_ok_elim td (make_call_text w) a
    (hinfo : build_info td (make_call_text w) a = Except.ok info)
  subst he
  cases hk : hasAlbumKeys (scrape_album_data (make_call_text w) a) with
  | false =>
    left
    have hkey := key1 (scrape_album_data (make_call_text w) a) td.id hk
    constructor
    · show (album_fields (scrape_album_data (make_call_text w) a) td.id).2.1 = _
      rw [hkey]
    · show (album_fields (scrape_album_data (make_call_text w) a) td.id).1 = _
      rw [hkey]
  | true =>
    right
    obtain ⟨n, tn, heq⟩ := key2 (scrape_album_data (make_call_text w) a) td.id hk
    refine ⟨n, tn, ?_, ?_⟩
    · show (album_fields (scrape_album_data (make_call_text w) a) td.id).2.1 = _
      rw [heq]
    · show (album_fields (scrape_album_data (make_call_text w) a) td.id).1 = _
      rw [heq]

/-- Witness for C10 at a full album record and at no record. -/
theorem track_fields_string_or_int_witness :
    (hasAlbumKeys (some exAlbum) = true ∧
      ∃ n tn : Int, album_fields (some exAlbum) 2
        = (PyVal.int n, PyVal.int tn, "album")) ∧
    (hasAlbumKeys (none : Option AlbumRecord) = false ∧
      album_fields (none : Option AlbumRecord) 2
        = (PyVal.str "1", PyVal.str "1", "single")) :=
  ⟨⟨rfl, (track_fields_string_or_int (some exAlbum) 2).2.1 rfl⟩,
    ⟨rfl, (track_fields_string_or_int none 2).1 rfl⟩⟩
